import Mathlib

/-!
Shallow embedding of the BLOCC system chaincode (`bscc` package, file
`bscc.go`) of ImperialCollegeLondon/blocc-fabric, together with theorems
settling the specification's claims about it.

Modelling conventions:
* Go byte slices that carry textual data (chaincode arguments, certificates,
  JSON payloads) are modelled as `String`.
* `pb.Response` is modelled by `Response`: `shim.Success(payload)` becomes
  `Response.success payload` and `shim.Error(msg)` becomes
  `Response.error msg`.
* External collaborators (the OS environment, the filesystem `os.Stat`, the
  orderer registry `peerInstance.GetOrdererInfo`, `ioutil.TempFile`, the
  external approval command) are inputs of the embedded functions: each
  embedded function takes the outcome the collaborator would produce and
  computes exactly what the Go code computes from it.
* Side effects of the event pipeline are recorded as an explicit trace of
  `PipelineOp` values, in the order the Go statements perform them.
-/

namespace BSCC

/-- Byte strings (Go `[]byte` used as text). -/
abbrev Bytes := String

/-- Model of `pb.Response` as produced by `shim.Success` / `shim.Error`. -/
inductive Response
  | success (payload : Option Bytes)
  | error (message : String)
deriving DecidableEq, Repr

/-- Model of the `Config` struct (`bscc.go` lines 44-48).  The opaque
`bccsp.BCCSP` crypto-provider handle carries no information relevant to the
claims and is modelled as `Unit`. -/
structure Config where
  PeerAddress : String
  TLSCertFile : String
  CryptoProvider : Unit
deriving DecidableEq, Repr

/-- Constant from `func (bscc *BSCC) Name() string` (line 31): the unit's own
registered chaincode name. -/
def Name : String := "bscc"

/-- Constant `approveSensoryReading` (line 53). -/
def approveSensoryReading : String := "ApproveSensoryReading"

/-- Constant `simulateForkAttempt` (line 54). -/
def simulateForkAttempt : String := "SimulateForkAttempt"

/-- Constant `checkForkStatus` (line 55). -/
def checkForkStatus : String := "CheckForkStatus"

/-- Model of `event.Event`: channel identifier and sensory transaction id. -/
structure Event where
  ChannelID : String
  SensoryTxID : String
deriving DecidableEq, Repr

-- ------------------- Fork status oracle ------------------- --

/-- Outcome of the external `os.Stat` call on a path, as far as the Go code
can observe it: no error (the file exists), an error satisfying
`os.IsNotExist` (the file does not exist), or any other error (permission
failure and the like, where existence is not determined). -/
inductive StatOutcome
  | statOk
  | statNotExist
  | statOtherError
deriving DecidableEq, Repr

/-- The per-channel marker path derived at `bscc.go` line 232. -/
def forkInfoPath (channelID : String) : String :=
  "/var/hyperledger/production/ledgersData/chains/chains/" ++ channelID ++
    "/fork_info.txt"

/-- Result of `json.Marshal` on a Go `bool`; marshalling a boolean never
fails, so the error branch at lines 242-246 is unreachable and the encoding
is total. -/
def jsonMarshalBool (b : Bool) : Bytes :=
  if b then "true" else "false"

/-- Model of `BSCC.CheckForkStatus` (lines 223-249).  `fs` gives the
`os.Stat` outcome for each path.  Mirrors the code: `isForked` is `false`
exactly when the stat error satisfies `os.IsNotExist`, and `true` in every
other case (including a non-not-exist stat error). -/
def CheckForkStatus (fs : String → StatOutcome) (channelID : String) :
    Response :=
  if channelID = "" then
    .error "ChannelID not specified"
  else
    let filename := forkInfoPath channelID
    let isForked : Bool :=
      if fs filename = .statNotExist then false else true
    .success (some (jsonMarshalBool isForked))

-- ------------------- Orderer resolver ------------------- --

/-- One ordering-service organization, as returned by the external registry
lookup `peerInstance.GetOrdererInfo`: a list of addresses and a list of root
certificates. -/
structure OrdererOrg where
  Addresses : List String
  RootCerts : List Bytes
deriving DecidableEq, Repr

/-- Result of `BSCC.gatherOrdererInfo`.  `indexOutOfRange` marks the Go
runtime panic raised by the unguarded accesses `orderer.Addresses[0]` /
`orderer.RootCerts[0]` when the indexed list is empty. -/
inductive GatherResult
  | ok (address : String) (rootCert : Bytes)
  | err (msg : String)
  | indexOutOfRange
deriving DecidableEq, Repr

/-- Model of `BSCC.gatherOrdererInfo` (lines 163-180).  `lookup` is the
outcome of the external registry call `peerInstance.GetOrdererInfo` for the
event's channel.  The `for` loop at lines 172-176 returns on its first
iteration, so only the first organization is ever inspected. -/
def gatherOrdererInfo (lookup : Except String (List OrdererOrg)) :
    GatherResult :=
  match lookup with
  | .error e => .err e
  | .ok orgs =>
    match orgs with
    | [] => .err "No orderer organization found"
    | org :: _ =>
      match org.Addresses[0]?, org.RootCerts[0]? with
      | some a, some c => .ok a c
      | _, _ => .indexOutOfRange

-- ------------------- Event processor ------------------- --

/-- Observable side effects of one event's pipeline, in program order:
the registry lookup, the successful staging of the root certificate into a
temp file at `path`, the (blocking) approval submission recorded with its
success flag, the removal of a temp file, and a runtime panic. -/
inductive PipelineOp
  | gatherInfo (channelID : String)
  | createTemp (path : String)
  | submitApproval (channelID txID path : String) (ok : Bool)
  | removeTemp (path : String)
  | crashed
deriving DecidableEq, Repr

/-- Outcomes of the external collaborators consulted while processing one
event: the registry lookup result, the `createTempFile` outcome (the fresh
temp path on success), and the external approval command's outcome. -/
structure EventEnv where
  lookup : Except String (List OrdererOrg)
  stage : Except String String
  submit : Except String Unit
deriving Repr

/-- Model of `BSCC.processEvent` (lines 141-161) as the trace of pipeline
operations it performs.  On a resolver or staging failure the event is
logged and dropped (early `return`, no further ops).  After a successful
staging, `defer bscc.removeTempFile(rootCertFilePath)` guarantees exactly
one removal of that path when the function returns, whether or not the
approval submission succeeds; a submission failure is only logged. -/
def processEvent (env : EventEnv) (ev : Event) : List PipelineOp :=
  match gatherOrdererInfo env.lookup with
  | .err _ => [.gatherInfo ev.ChannelID]
  | .indexOutOfRange => [.gatherInfo ev.ChannelID, .crashed]
  | .ok _ _ =>
    match env.stage with
    | .error _ => [.gatherInfo ev.ChannelID]
    | .ok path =>
      [.gatherInfo ev.ChannelID, .createTemp path,
       .submitApproval ev.ChannelID ev.SensoryTxID path
         (match env.submit with | .ok _ => true | .error _ => false),
       .removeTemp path]

/-- Paths of the `removeTempFile` calls occurring in a pipeline trace. -/
def removals : List PipelineOp → List String
  | [] => []
  | .removeTemp p :: rest => p :: removals rest
  | _ :: rest => removals rest

/-- Paths of the successful temp-file creations occurring in a trace. -/
def creations : List PipelineOp → List String
  | [] => []
  | .createTemp p :: rest => p :: creations rest
  | _ :: rest => creations rest

/-- Model of the consumer loop started at `bscc.go` lines 70-74:
`for _event := range event.GlobalEventBus.Subscribe() { bscc.processEvent(_event) }`.
A single goroutine ranges over the subscription channel, so the events (with
the collaborator outcomes each one meets) are consumed one at a time, in
arrival order, and each event's pipeline runs to completion before the next
begins; the global trace is the concatenation of the per-event traces. -/
def consumerLoop : List (EventEnv × Event) → List PipelineOp
  | [] => []
  | e :: rest => processEvent e.1 e.2 ++ consumerLoop rest

-- ------------------- Init ------------------- --

/-- Model of the OS environment as seen by `Init`: the two looked-up
variables, `none` when absent. -/
structure OsEnv where
  corePeerAddress : Option String
  corePeerTLSRootCertFile : Option String
deriving DecidableEq, Repr

/-- State left behind by `Init`: whether the background consumer goroutine
has been started (it subscribes to the global event bus), and the `config`
field of the receiver (`none` while never assigned). -/
structure InitState where
  consumerSubscribed : Bool
  config : Option Config
deriving DecidableEq, Repr

/-- Model of `BSCC.Init` (lines 68-94), in the statement order of the Go
code: the consumer goroutine is started by the `go` statement at line 70,
BEFORE either environment variable is looked up, so `consumerSubscribed` is
`true` on every path, including both error returns. -/
def Init (env : OsEnv) : InitState × Response :=
  let st : InitState := { consumerSubscribed := true, config := none }
  match env.corePeerAddress with
  | none => (st, .error "CORE_PEER_ADDRESS is not set")
  | some peerAddress =>
    match env.corePeerTLSRootCertFile with
    | none => (st, .error "CORE_PEER_TLS_ROOTCERT_FILE is not set")
    | some tlsCertFile =>
      ({ st with
          config := some
            { PeerAddress := peerAddress
              TLSCertFile := tlsCertFile
              CryptoProvider := () } },
        .success none)

/-- Events published on the global bus are delivered to the consumer loop
exactly when the subscription goroutine has been started; nothing in the
unit ever cancels it.  Yields the pipeline trace the started (or never
started) consumer produces. -/
def consumerRun (st : InitState) (inputs : List (EventEnv × Event)) :
    List PipelineOp :=
  if st.consumerSubscribed then consumerLoop inputs else []

-- ------------------- Dispatcher ------------------- --

/-- Model of the signed proposal attached to the call context.
`invokedChaincodeName` is the outcome of
`protoutil.InvokedChaincodeName(sp.ProposalBytes)`. -/
structure Proposal where
  invokedChaincodeName : Except String String
deriving Repr

/-- Model of the `shim.ChaincodeStubInterface` inputs `Invoke` consults:
the argument list from `stub.GetArgs()` and the outcome of
`stub.GetSignedProposal()`. -/
structure Stub where
  args : List Bytes
  getSignedProposal : Except String Proposal
deriving Repr

/-- Result of `Invoke` together with the externally visible steps taken:
whether `GetSignedProposal` was called and whether the routing switch was
reached. -/
structure InvokeResult where
  response : Response
  proposalRetrieved : Bool
  routed : Bool
deriving DecidableEq, Repr

/-- Model of `BSCC.Invoke` (lines 97-137).  The argument-count guard at
line 101 fires before any proposal retrieval; then the signed proposal is
fetched and the originally invoked chaincode name extracted and compared
with the unit's own name; only then is the first argument routed. -/
def Invoke (fs : String → StatOutcome) (stub : Stub) : InvokeResult :=
  match stub.args with
  | a0 :: a1 :: _ =>
    match stub.getSignedProposal with
    | .error e =>
      { response := .error
          ("Failed getting signed proposal from stub: [" ++ e ++ "]")
        proposalRetrieved := true
        routed := false }
    | .ok sp =>
      match sp.invokedChaincodeName with
      | .error e =>
        { response := .error ("Failed to identify the called chaincode: " ++ e)
          proposalRetrieved := true
          routed := false }
      | .ok name =>
        if name ≠ Name then
          { response := .error
              ("Rejecting invoke of CSCC from another chaincode, original invocation for \x27" ++
                name ++ "\x27")
            proposalRetrieved := true
            routed := false }
        else if a0 = approveSensoryReading then
          { response := .success (some a1)
            proposalRetrieved := true
            routed := true }
        else if a0 = simulateForkAttempt then
          { response := .success none
            proposalRetrieved := true
            routed := true }
        else if a0 = checkForkStatus then
          { response := CheckForkStatus fs a1
            proposalRetrieved := true
            routed := true }
        else
          { response := .error ("Requested function " ++ a0 ++ " not found.")
            proposalRetrieved := true
            routed := true }
  | args =>
    { response := .error
        ("Incorrect number of arguments, " ++ toString args.length)
      proposalRetrieved := false
      routed := false }

end BSCC

-- ===================== Theorems ===================== --

namespace BSCC

/-- Claim C7: for every invocation of the dispatcher with fewer than two
arguments, `Invoke` returns the argument-count error and performs no
proposal retrieval and no routing (no identity check, no side effect beyond
the error response). -/
theorem Invoke_short_args_argument_count_error (fs : String → StatOutcome)
    (stub : Stub) (h : stub.args.length < 2) :
    Invoke fs stub =
      { response := .error
          ("Incorrect number of arguments, " ++ toString stub.args.length)
        proposalRetrieved := false
        routed := false } := by
  obtain ⟨args, gsp⟩ := stub
  rcases args with _ | ⟨a, _ | ⟨b, t⟩⟩
  · rfl
  · rfl
  · simp at h
    omega

/-- Witness for C7: a one-argument invocation gets the argument-count error
with no proposal retrieval. -/
theorem Invoke_short_args_argument_count_error_witness :
    Invoke (fun _ => StatOutcome.statNotExist)
        { args := ["ApproveSensoryReading"]
          getSignedProposal := .ok { invokedChaincodeName := .ok "bscc" } } =
      { response := .error "Incorrect number of arguments, 1"
        proposalRetrieved := false
        routed := false } :=
  Invoke_short_args_argument_count_error (fun _ => StatOutcome.statNotExist)
    { args := ["ApproveSensoryReading"]
      getSignedProposal := .ok { invokedChaincodeName := .ok "bscc" } }
    (by decide)

/-- Claim C2 counterexample: an invocation carrying a single argument whose
proposal-derived invoker chaincode name is "cscc" (≠ "bscc") does NOT get
the identity-mismatch error: the argument-count guard fires first, so the
claim "regardless of the number of arguments supplied" fails. -/
theorem Invoke_identity_mismatch_counterexample :
    (Invoke (fun _ => StatOutcome.statNotExist)
        { args := ["ApproveSensoryReading"]
          getSignedProposal := .ok { invokedChaincodeName := .ok "cscc" } }).response =
      .error "Incorrect number of arguments, 1" ∧
    (Invoke (fun _ => StatOutcome.statNotExist)
        { args := ["ApproveSensoryReading"]
          getSignedProposal := .ok { invokedChaincodeName := .ok "cscc" } }).response ≠
      .error "Rejecting invoke of CSCC from another chaincode, original invocation for \x27cscc\x27" := by
  exact ⟨rfl, by decide⟩

/-- Claim C2 as amended: for every invocation with at least two arguments
whose signed proposal is retrievable and whose proposal-derived invoker
chaincode name is extractable and differs from this unit's own name
("bscc"), `Invoke` returns the identity-mismatch error, regardless of the
function name in the first argument. -/
theorem Invoke_identity_mismatch (fs : String → StatOutcome) (stub : Stub)
    (a0 a1 : Bytes) (rest : List Bytes) (sp : Proposal) (name : String)
    (hargs : stub.args = a0 :: a1 :: rest)
    (hsp : stub.getSignedProposal = .ok sp)
    (hname : sp.invokedChaincodeName = .ok name)
    (hne : name ≠ Name) :
    (Invoke fs stub).response =
      .error
        ("Rejecting invoke of CSCC from another chaincode, original invocation for \x27" ++
          name ++ "\x27") := by
  obtain ⟨args, gsp⟩ := stub
  simp only at hargs hsp
  subst hargs hsp
  simp [Invoke, hname, hne]

/-- Witness for the amended C2: a two-argument invocation whose derived
invoker name is "cscc" gets the identity-mismatch error. -/
theorem Invoke_identity_mismatch_witness :
    (Invoke (fun _ => StatOutcome.statNotExist)
        { args := ["ApproveSensoryReading", "tx-1"]
          getSignedProposal := .ok { invokedChaincodeName := .ok "cscc" } }).response =
      .error "Rejecting invoke of CSCC from another chaincode, original invocation for \x27cscc\x27" :=
  Invoke_identity_mismatch (fun _ => StatOutcome.statNotExist)
    { args := ["ApproveSensoryReading", "tx-1"]
      getSignedProposal := .ok { invokedChaincodeName := .ok "cscc" } }
    "ApproveSensoryReading" "tx-1" [] { invokedChaincodeName := .ok "cscc" }
    "cscc" rfl rfl rfl (by decide)

/-- Claim C3: for every non-empty channel identifier, when the stat outcome
at the derived marker path is determinate (not a non-not-exist error),
`CheckForkStatus` returns a success response whose payload is the encoded
boolean `true` exactly when the marker file exists, and the encoded boolean
`false` exactly when it does not exist. -/
theorem CheckForkStatus_marker_existence (fs : String → StatOutcome)
    (channelID : String) (hch : channelID ≠ "")
    (hdet : fs (forkInfoPath channelID) ≠ .statOtherError) :
    (CheckForkStatus fs channelID = .success (some (jsonMarshalBool true)) ↔
      fs (forkInfoPath channelID) = .statOk) ∧
    (CheckForkStatus fs channelID = .success (some (jsonMarshalBool false)) ↔
      fs (forkInfoPath channelID) = .statNotExist) := by
  cases h : fs (forkInfoPath channelID) with
  | statOk => simp [CheckForkStatus, hch, h, jsonMarshalBool]
  | statNotExist => simp [CheckForkStatus, hch, h, jsonMarshalBool]
  | statOtherError => exact absurd h hdet

/-- Witness for C3: on "channel-7", a present marker file yields payload
"true" and an absent one yields payload "false". -/
theorem CheckForkStatus_marker_existence_witness :
    ((CheckForkStatus (fun _ => StatOutcome.statOk) "channel-7" =
        .success (some (jsonMarshalBool true)) ↔
      (fun _ => StatOutcome.statOk) (forkInfoPath "channel-7") =
        StatOutcome.statOk) ∧
     (CheckForkStatus (fun _ => StatOutcome.statOk) "channel-7" =
        .success (some (jsonMarshalBool false)) ↔
      (fun _ => StatOutcome.statOk) (forkInfoPath "channel-7") =
        StatOutcome.statNotExist)) ∧
    ((CheckForkStatus (fun _ => StatOutcome.statNotExist) "channel-7" =
        .success (some (jsonMarshalBool true)) ↔
      (fun _ => StatOutcome.statNotExist) (forkInfoPath "channel-7") =
        StatOutcome.statOk) ∧
     (CheckForkStatus (fun _ => StatOutcome.statNotExist) "channel-7" =
        .success (some (jsonMarshalBool false)) ↔
      (fun _ => StatOutcome.statNotExist) (forkInfoPath "channel-7") =
        StatOutcome.statNotExist)) :=
  ⟨CheckForkStatus_marker_existence (fun _ => StatOutcome.statOk)
      "channel-7" (by decide) (by decide),
    CheckForkStatus_marker_existence (fun _ => StatOutcome.statNotExist)
      "channel-7" (by decide) (by decide)⟩

/-- Claim C10: for every non-empty channel identifier, if the existence
check on the derived marker path fails with any error other than a
not-exist error, `CheckForkStatus` reports the channel as forked: a success
response whose payload is the encoded boolean `true`, not an error. -/
theorem CheckForkStatus_stat_error_reports_forked (fs : String → StatOutcome)
    (channelID : String) (hch : channelID ≠ "")
    (h : fs (forkInfoPath channelID) = .statOtherError) :
    CheckForkStatus fs channelID = .success (some (jsonMarshalBool true)) := by
  simp [CheckForkStatus, hch, h, jsonMarshalBool]

/-- Witness for C10: a permission-style stat failure on the marker path of
"channel-7" yields payload "true". -/
theorem CheckForkStatus_stat_error_reports_forked_witness :
    CheckForkStatus (fun _ => StatOutcome.statOtherError) "channel-7" =
      .success (some (jsonMarshalBool true)) :=
  CheckForkStatus_stat_error_reports_forked
    (fun _ => StatOutcome.statOtherError) "channel-7" (by decide) (by decide)

end BSCC

namespace BSCC

/-- Claim C4: for every event whose pipeline reaches the credential-staging
step successfully (the resolver returned an endpoint and staging yielded a
path `p`), the pipeline removes exactly that temp path, exactly once,
regardless of whether the approval submission succeeds or fails; the list
of removals is `[p]`, so no other path — in particular no other event's
temp file — is removed, and `p` is precisely the path this iteration
created. -/
theorem processEvent_removes_temp_exactly_once (env : EventEnv) (ev : Event)
    (a : String) (c : Bytes) (p : String)
    (hg : gatherOrdererInfo env.lookup = .ok a c)
    (hs : env.stage = .ok p) :
    removals (processEvent env ev) = [p] ∧
    creations (processEvent env ev) = [p] := by
  unfold processEvent
  rw [hg, hs]
  exact ⟨rfl, rfl⟩

/-- Witness for C4: with a staged path and a FAILING approval submission,
the pipeline still removes exactly the staged path once. -/
theorem processEvent_removes_temp_exactly_once_witness :
    removals
        (processEvent
          { lookup := .ok [{ Addresses := ["orderer0:7050"], RootCerts := ["certA"] }]
            stage := .ok "/tmp/rootCertFile123"
            submit := .error "submission failed" }
          { ChannelID := "ch1", SensoryTxID := "tx1" }) =
      ["/tmp/rootCertFile123"] ∧
    creations
        (processEvent
          { lookup := .ok [{ Addresses := ["orderer0:7050"], RootCerts := ["certA"] }]
            stage := .ok "/tmp/rootCertFile123"
            submit := .error "submission failed" }
          { ChannelID := "ch1", SensoryTxID := "tx1" }) =
      ["/tmp/rootCertFile123"] :=
  processEvent_removes_temp_exactly_once
    { lookup := .ok [{ Addresses := ["orderer0:7050"], RootCerts := ["certA"] }]
      stage := .ok "/tmp/rootCertFile123"
      submit := .error "submission failed" }
    { ChannelID := "ch1", SensoryTxID := "tx1" }
    "orderer0:7050" "certA" "/tmp/rootCertFile123" rfl rfl

/-- Claim C5: for every event whose registry lookup returns an empty set of
ordering-service organizations, the resolver returns the no-orderer-org
error, the pipeline stops after the lookup (the event is dropped), and no
temp credential file is created during that event's processing. -/
theorem processEvent_no_orderer_org (env : EventEnv) (ev : Event)
    (h : env.lookup = .ok []) :
    gatherOrdererInfo env.lookup = .err "No orderer organization found" ∧
    processEvent env ev = [.gatherInfo ev.ChannelID] ∧
    creations (processEvent env ev) = [] := by
  have hg : gatherOrdererInfo env.lookup = .err "No orderer organization found" := by
    rw [h]
    rfl
  have htr : processEvent env ev = [.gatherInfo ev.ChannelID] := by
    unfold processEvent
    rw [hg]
  refine ⟨hg, htr, ?_⟩
  rw [htr]
  rfl

/-- Witness for C5: an empty organization list yields the no-orderer-org
error, a lookup-only trace, and no temp-file creation. -/
theorem processEvent_no_orderer_org_witness :
    gatherOrdererInfo
        (EventEnv.lookup
          { lookup := .ok [], stage := .error "never staged", submit := .ok () }) =
      .err "No orderer organization found" ∧
    processEvent
        { lookup := .ok [], stage := .error "never staged", submit := .ok () }
        { ChannelID := "ch1", SensoryTxID := "tx1" } =
      [.gatherInfo "ch1"] ∧
    creations
        (processEvent
          { lookup := .ok [], stage := .error "never staged", submit := .ok () }
          { ChannelID := "ch1", SensoryTxID := "tx1" }) = [] :=
  processEvent_no_orderer_org
    { lookup := .ok [], stage := .error "never staged", submit := .ok () }
    { ChannelID := "ch1", SensoryTxID := "tx1" } rfl

/-- Claim C6: for every registry result that is a non-empty organization
list whose first organization has at least one address and at least one
root certificate, the resolver returns exactly the first organization's
first listed address and first listed root certificate; being a pure
function of the registry result, the same result always yields the same
selection, and no alternate address, certificate, or organization is ever
selected. -/
theorem gatherOrdererInfo_first_org_first_entries (org : OrdererOrg)
    (rest : List OrdererOrg) (a : String) (addrs : List String)
    (c : Bytes) (certs : List Bytes)
    (ha : org.Addresses = a :: addrs) (hc : org.RootCerts = c :: certs) :
    gatherOrdererInfo (.ok (org :: rest)) = .ok a c := by
  simp [gatherOrdererInfo, ha, hc]

/-- Witness for C6: two organizations with two addresses and two
certificates each: the first address and first certificate of the first
organization are selected. -/
theorem gatherOrdererInfo_first_org_first_entries_witness :
    gatherOrdererInfo
        (.ok [{ Addresses := ["addr1", "addr2"], RootCerts := ["cert1", "cert2"] },
              { Addresses := ["addrB"], RootCerts := ["certB"] }]) =
      .ok "addr1" "cert1" :=
  gatherOrdererInfo_first_org_first_entries
    { Addresses := ["addr1", "addr2"], RootCerts := ["cert1", "cert2"] }
    [{ Addresses := ["addrB"], RootCerts := ["certB"] }]
    "addr1" ["addr2"] "cert1" ["cert2"] rfl rfl

/-- Claim C9: if the registry lookup returns a non-empty organization list
whose first organization has an empty address list or an empty
root-certificate list, the resolver performs an out-of-bounds index access
(a Go runtime panic), not an error return: the unguarded first-element
accesses are safe only when the first organization has at least one address
and at least one root certificate. -/
theorem gatherOrdererInfo_empty_lists_index_panic (org : OrdererOrg)
    (rest : List OrdererOrg)
    (h : org.Addresses = [] ∨ org.RootCerts = []) :
    gatherOrdererInfo (.ok (org :: rest)) = .indexOutOfRange := by
  rcases h with h | h
  · cases hc : org.RootCerts <;> simp [gatherOrdererInfo, h, hc]
  · cases ha : org.Addresses <;> simp [gatherOrdererInfo, h, ha]

/-- Witness for C9: one organization with certificates but no addresses
makes the resolver hit the out-of-bounds access. -/
theorem gatherOrdererInfo_empty_lists_index_panic_witness :
    gatherOrdererInfo (.ok [{ Addresses := [], RootCerts := ["certX"] }]) =
      .indexOutOfRange :=
  gatherOrdererInfo_empty_lists_index_panic
    { Addresses := [], RootCerts := ["certX"] } [] (Or.inl rfl)

/-- Claim C8: the single background consumer processes events strictly in
arrival order, one pipeline at a time: in the global operation trace, every
operation of each event's pipeline forms one contiguous block, all
operations of earlier-arriving events precede it, and all operations of
later-arriving events follow it — no reordering and no overlap between two
events' pipelines is observable. -/
theorem consumerLoop_sequential_in_order (pre : List (EventEnv × Event))
    (e : EventEnv × Event) (post : List (EventEnv × Event)) :
    consumerLoop (pre ++ e :: post) =
      consumerLoop pre ++ (processEvent e.1 e.2 ++ consumerLoop post) := by
  induction pre with
  | nil => rfl
  | cons x xs ih => simp [consumerLoop, ih]

/-- Claim C1 (evidence of the code bug): with `CORE_PEER_ADDRESS` absent
from the environment, `Init` returns an error and never populates the
config — yet the consumer goroutine was already subscribed by the `go`
statement that precedes the environment lookups, so a subsequently
published event IS processed (its pipeline trace is non-empty), refuting
the claim that no event is ever processed when initialization fails. -/
theorem Init_missing_env_consumer_still_processes :
    (Init { corePeerAddress := none
            corePeerTLSRootCertFile := some "/tls/ca.crt" }).2 =
      .error "CORE_PEER_ADDRESS is not set" ∧
    (Init { corePeerAddress := none
            corePeerTLSRootCertFile := some "/tls/ca.crt" }).1.config = none ∧
    consumerRun
        (Init { corePeerAddress := none
                corePeerTLSRootCertFile := some "/tls/ca.crt" }).1
        [({ lookup := .error "registry unavailable"
            stage := .error "not reached"
            submit := .ok () },
          { ChannelID := "ch1", SensoryTxID := "tx1" })] =
      [.gatherInfo "ch1"] :=
  ⟨rfl, rfl, rfl⟩

end BSCC
